import Mathlib

/-!
A shallow embedding, in Lean 4, of the `emu_test_runner` snapshot-testing
harness (Rust), covering the data model (`src/outputs.rs`, `src/inputs.rs`,
`src/options.rs`), the report aggregator (`src/processing.rs`,
`TestReport::new`), the classification engine (`src/lib.rs`,
`process_results`), path derivation (`src/setup.rs`), the on-disk generation
rotation (`src/setup.rs`, `setup_output_directory`), and the
panic-correlation machinery (`src/panics.rs`).

Modelling conventions:
- byte buffers are `List Nat`;
- filesystem paths are lists of path components (`List String`);
- `Duration` values are abstract `Nat` ticks;
- fallible filesystem / image operations are modelled by explicit oracle
  fields (`save_ok`, `copy_ok`, `DiskImage.corrupt`, ...) describing what the
  real filesystem call would have returned, and Rust `Result`/`?` becomes
  `Except` with explicit propagation;
- Rust panics/unwinding become `Except` values: `.error` is an unwinding
  payload, and sequencing that skips the rest of a function on unwind is
  written out explicitly.
The source snapshot mixes two revisions of the crate (`outputs.rs` carries an
older `EmuContext {rom_path, rom_id}` while `lib.rs`/`formatters/simple.rs`
use `EmuContext {candidate}`); we embed the coherent `candidate`-based model
used by `lib.rs`, which changes none of the partition/classification logic.
-/

namespace EmuTest

/-- Embeds `src/inputs.rs`: `TestCandidate { rom_id, rom_path, is_sequence_test }`. -/
structure TestCandidate where
  rom_id : String
  rom_path : List String
  is_sequence_test : Bool
deriving DecidableEq, Repr

/-- Embeds `src/outputs.rs`: `FrameOutput`/`RgbaFrame`: an optional tag plus the raw
RGBA byte buffer. -/
structure FrameOutput where
  tag : Option String
  frame : List Nat
deriving DecidableEq, Repr

/-- Embeds `src/outputs.rs`: `TestOutputPassed { is_new }`. -/
structure TestOutputPassed where
  is_new : Bool
deriving DecidableEq, Repr

/-- Embeds `src/outputs.rs`: `TestOutputUnchanged { newly_added }`. -/
structure TestOutputUnchanged where
  newly_added : Bool
deriving DecidableEq, Repr

/-- Embeds `src/outputs.rs`: `TestOutputFailure { failure_path, snapshot_path, is_new }`. -/
structure TestOutputFailure where
  failure_path : List String
  snapshot_path : List String
  is_new : Bool
deriving DecidableEq, Repr

/-- Embeds `src/outputs.rs`: `TestOutputChanged { changed_path, old_path }`. -/
structure TestOutputChanged where
  changed_path : List String
  old_path : List String
deriving DecidableEq, Repr

/-- Embeds `src/outputs.rs`: `TestOutputError { reason }`; the `anyhow::Error` payload
is modelled by its message string. -/
structure TestOutputError where
  reason : String
deriving DecidableEq, Repr

/-- Embeds `src/outputs.rs`: `enum TestOutputType`. -/
inductive TestOutputType where
  | Unchanged (u : TestOutputUnchanged)
  | Changed (c : TestOutputChanged)
  | Failure (f : TestOutputFailure)
  | Passed (p : TestOutputPassed)
  | Error (e : TestOutputError)
deriving DecidableEq, Repr

/-- Embeds `src/outputs.rs`: `EmuContext<T>` (the `lib.rs`-revision shape, carrying
the whole candidate). -/
structure EmuContext (T : Type) where
  candidate : TestCandidate
  context : T
deriving DecidableEq, Repr

/-- Embeds `src/outputs.rs`: `TestOutputContext<T> { time_taken, output }`. -/
structure TestOutputContext (T : Type) where
  time_taken : Option Nat
  output : T
deriving DecidableEq, Repr

/-- Embeds `src/outputs.rs`: `RunnerOutputContext { time_taken, frame_output }`
(the `lib.rs` revision holds a `Vec<FrameOutput>`). -/
structure RunnerOutputContext where
  time_taken : Nat
  frame_output : List FrameOutput
deriving DecidableEq, Repr

abbrev TestOutput := EmuContext (TestOutputContext TestOutputType)
abbrev TestPassed := EmuContext (TestOutputContext TestOutputPassed)
abbrev TestUnchanged := EmuContext (TestOutputContext TestOutputUnchanged)
abbrev TestFailed := EmuContext (TestOutputContext TestOutputFailure)
abbrev TestChanged := EmuContext (TestOutputContext TestOutputChanged)
abbrev TestError := EmuContext TestOutputError
abbrev RunnerOutput := EmuContext RunnerOutputContext
/-- Embeds `RunnerError = EmuContext<anyhow::Error>`; the error is its message. -/
abbrev RunnerError := EmuContext String

/-- Embeds `src/processing.rs` / `src/outputs.rs`: `TestReport`. -/
structure TestReport where
  test_outputs : List TestOutput
  passed : List TestPassed
  unchanged : List TestUnchanged
  fails : List TestFailed
  changed : List TestChanged
  errors : List TestError
deriving DecidableEq, Repr

/-- The five bucket lists built by the `for report in test_outputs` loop of
`TestReport::new` (src/processing.rs:119-176): each output is pushed, in input
order, onto exactly the bucket matching its `TestOutputType` variant. -/
def TestReport.buckets :
    List TestOutput →
      List TestPassed × List TestUnchanged × List TestFailed × List TestChanged × List TestError
  | [] => ([], [], [], [], [])
  | report :: rest =>
    let (passed, unchanged, fails, changed, errors) := TestReport.buckets rest
    match report.context.output with
    | .Unchanged same =>
      (passed, ⟨report.candidate, ⟨report.context.time_taken, same⟩⟩ :: unchanged, fails, changed, errors)
    | .Changed changes =>
      (passed, unchanged, fails, ⟨report.candidate, ⟨report.context.time_taken, changes⟩⟩ :: changed, errors)
    | .Failure fail =>
      (passed, unchanged, ⟨report.candidate, ⟨report.context.time_taken, fail⟩⟩ :: fails, changed, errors)
    | .Passed pass =>
      (⟨report.candidate, ⟨report.context.time_taken, pass⟩⟩ :: passed, unchanged, fails, changed, errors)
    | .Error e =>
      (passed, unchanged, fails, changed, ⟨report.candidate, e⟩ :: errors)

/-- Embeds `src/processing.rs:119-176`: `TestReport::new` keeps the full output list
and partitions a clone of it into the five buckets. -/
def TestReport.new (test_outputs : List TestOutput) : TestReport :=
  { test_outputs,
    passed := (TestReport.buckets test_outputs).1,
    unchanged := (TestReport.buckets test_outputs).2.1,
    fails := (TestReport.buckets test_outputs).2.2.1,
    changed := (TestReport.buckets test_outputs).2.2.2.1,
    errors := (TestReport.buckets test_outputs).2.2.2.2 }

/-- Bucket extractor corresponding to the `TestOutputType::Passed` arm. -/
def passedEntry (o : TestOutput) : Option TestPassed :=
  match o.context.output with
  | .Passed p => some ⟨o.candidate, ⟨o.context.time_taken, p⟩⟩
  | _ => none

/-- Bucket extractor corresponding to the `TestOutputType::Unchanged` arm. -/
def unchangedEntry (o : TestOutput) : Option TestUnchanged :=
  match o.context.output with
  | .Unchanged u => some ⟨o.candidate, ⟨o.context.time_taken, u⟩⟩
  | _ => none

/-- Bucket extractor corresponding to the `TestOutputType::Failure` arm. -/
def failedEntry (o : TestOutput) : Option TestFailed :=
  match o.context.output with
  | .Failure f => some ⟨o.candidate, ⟨o.context.time_taken, f⟩⟩
  | _ => none

/-- Bucket extractor corresponding to the `TestOutputType::Changed` arm. -/
def changedEntry (o : TestOutput) : Option TestChanged :=
  match o.context.output with
  | .Changed c => some ⟨o.candidate, ⟨o.context.time_taken, c⟩⟩
  | _ => none

/-- Bucket extractor corresponding to the `TestOutputType::Error` arm. -/
def errorEntry (o : TestOutput) : Option TestError :=
  match o.context.output with
  | .Error e => some ⟨o.candidate, e⟩
  | _ => none

theorem buckets_passed_eq (l : List TestOutput) :
    (TestReport.buckets l).1 = l.filterMap passedEntry := by
  induction l with
  | nil => rfl
  | cons o rest ih =>
    simp only [TestReport.buckets, List.filterMap_cons]
    cases h : o.context.output <;>
      simp [passedEntry, h, ih]

theorem buckets_unchanged_eq (l : List TestOutput) :
    (TestReport.buckets l).2.1 = l.filterMap unchangedEntry := by
  induction l with
  | nil => rfl
  | cons o rest ih =>
    simp only [TestReport.buckets, List.filterMap_cons]
    cases h : o.context.output <;>
      simp [unchangedEntry, h, ih]

theorem buckets_fails_eq (l : List TestOutput) :
    (TestReport.buckets l).2.2.1 = l.filterMap failedEntry := by
  induction l with
  | nil => rfl
  | cons o rest ih =>
    simp only [TestReport.buckets, List.filterMap_cons]
    cases h : o.context.output <;>
      simp [failedEntry, h, ih]

theorem buckets_changed_eq (l : List TestOutput) :
    (TestReport.buckets l).2.2.2.1 = l.filterMap changedEntry := by
  induction l with
  | nil => rfl
  | cons o rest ih =>
    simp only [TestReport.buckets, List.filterMap_cons]
    cases h : o.context.output <;>
      simp [changedEntry, h, ih]

theorem buckets_errors_eq (l : List TestOutput) :
    (TestReport.buckets l).2.2.2.2 = l.filterMap errorEntry := by
  induction l with
  | nil => rfl
  | cons o rest ih =>
    simp only [TestReport.buckets, List.filterMap_cons]
    cases h : o.context.output <;>
      simp [errorEntry, h, ih]

theorem filterMap_five_length (l : List TestOutput) :
    (l.filterMap passedEntry).length + (l.filterMap unchangedEntry).length +
      (l.filterMap failedEntry).length + (l.filterMap changedEntry).length +
      (l.filterMap errorEntry).length = l.length := by
  induction l with
  | nil => rfl
  | cons o rest ih =>
    simp only [List.filterMap_cons]
    cases h : o.context.output <;>
      simp only [passedEntry, unchangedEntry, failedEntry, changedEntry, errorEntry, h,
        List.length_cons] <;> omega

theorem buckets_length_sum (l : List TestOutput) :
    (TestReport.buckets l).1.length + (TestReport.buckets l).2.1.length +
      (TestReport.buckets l).2.2.1.length + (TestReport.buckets l).2.2.2.1.length +
      (TestReport.buckets l).2.2.2.2.length = l.length := by
  rw [buckets_passed_eq, buckets_unchanged_eq, buckets_fails_eq, buckets_changed_eq,
    buckets_errors_eq]
  exact filterMap_five_length l

/-- C1. `TestReport::new` (src/processing.rs:119-176) partitions its input
into the five buckets by outcome kind: the full input list is retained
unmodified in `test_outputs`; the five bucket lengths sum to the input length;
each bucket is exactly the in-order selection (`filterMap`) of the outputs of
its kind; and every single output matches exactly one of the five extractors,
so the buckets are pairwise disjoint with no duplication and no loss. This
holds for every input list, in particular the empty list and an all-Error
list. -/
theorem C1_report_partition (outs : List TestOutput) :
    (TestReport.new outs).test_outputs = outs ∧
    (TestReport.new outs).passed.length + (TestReport.new outs).unchanged.length +
      (TestReport.new outs).changed.length + (TestReport.new outs).fails.length +
      (TestReport.new outs).errors.length = outs.length ∧
    (TestReport.new outs).passed = outs.filterMap passedEntry ∧
    (TestReport.new outs).unchanged = outs.filterMap unchangedEntry ∧
    (TestReport.new outs).fails = outs.filterMap failedEntry ∧
    (TestReport.new outs).changed = outs.filterMap changedEntry ∧
    (TestReport.new outs).errors = outs.filterMap errorEntry ∧
    (∀ o : TestOutput,
      ((passedEntry o).isSome.toNat + (unchangedEntry o).isSome.toNat +
        (failedEntry o).isSome.toNat + (changedEntry o).isSome.toNat +
        (errorEntry o).isSome.toNat) = 1) := by
  refine ⟨rfl, ?_, ?_, ?_, ?_, ?_, ?_, ?_⟩
  · have h := buckets_length_sum outs
    simp only [TestReport.new]
    omega
  · exact buckets_passed_eq outs
  · exact buckets_unchanged_eq outs
  · exact buckets_fails_eq outs
  · exact buckets_changed_eq outs
  · exact buckets_errors_eq outs
  · intro o
    cases h : o.context.output <;>
      simp [passedEntry, unchangedEntry, failedEntry, changedEntry, errorEntry, h]

/-- Embeds `src/options.rs`: `EmuRunnerOptions` (durations as abstract ticks). -/
structure EmuRunnerOptions where
  output_path : List String
  snapshot_path : List String
  num_threads : Nat
  expected_frame_width : Nat
  expected_frame_height : Nat
  put_sequence_tests_in_subfolder : Bool
  copy_comparison_image : Bool
  timeout : Option Nat
deriving DecidableEq, Repr

/-- Embeds `src/setup.rs`: `NEW_DIR_NAME`. -/
def NEW_DIR_NAME : String := "new"

/-- Embeds `src/setup.rs`: `OLD_DIR_NAME`. -/
def OLD_DIR_NAME : String := "old"

/-- Embeds `src/setup.rs`: `CHANGED_DIR_NAME`. -/
def CHANGED_DIR_NAME : String := "changed"

/-- Embeds `src/setup.rs`: `FAILED_DIR_NAME`. -/
def FAILED_DIR_NAME : String := "failures"

/-- Embeds `src/setup.rs`: `new_path(output) = output.join("new")`. -/
def new_path (output : List String) : List String := output ++ [NEW_DIR_NAME]

/-- Embeds `src/setup.rs`: `old_path(output) = output.join("old")`. -/
def old_path (output : List String) : List String := output ++ [OLD_DIR_NAME]

/-- Embeds `src/setup.rs`: `changed_path(output) = output.join("changed")`. -/
def changed_path (output : List String) : List String := output ++ [CHANGED_DIR_NAME]

/-- Embeds `src/setup.rs`: `failures_path(output) = output.join("failures")`. -/
def failures_path (output : List String) : List String := output ++ [FAILED_DIR_NAME]

/-- Embeds `src/setup.rs:61-67`: `rom_id_to_png`: `"{rom_id}_{suffix}.png"` when a tag
is present, `"{rom_id}.png"` otherwise. -/
def rom_id_to_png (rom_id : String) (suffix : Option String) : String :=
  match suffix with
  | some s => rom_id ++ "_" ++ s ++ ".png"
  | none => rom_id ++ ".png"

/-- Embeds `src/lib.rs:142-148`: the `path_suffix` computed per frame: nested in a
per-candidate subfolder when the candidate is a sequence test and
`put_sequence_tests_in_subfolder` is set, flat otherwise. -/
def path_suffix (cand : TestCandidate) (tag : Option String) (subfolder : Bool) : List String :=
  let result_name := rom_id_to_png cand.rom_id tag
  if cand.is_sequence_test && subfolder then [cand.rom_id, result_name] else [result_name]

/-- The state of one on-disk image file: missing, present but undecodable, or
decoding to a byte buffer. -/
inductive DiskImage where
  | absent
  | corrupt
  | decoded (bytes : List Nat)
deriving DecidableEq, Repr

/-- Embeds `Path::exists()` on the file modelled by a `DiskImage`. -/
def DiskImage.file_exists : DiskImage → Bool
  | .absent => false
  | _ => true

/-- Embeds `image::open` on the file modelled by a `DiskImage`: fails on a missing or
corrupt file, returns the decoded bytes otherwise. -/
def image_open : DiskImage → Except String (List Nat)
  | .absent => .error "No such file or directory"
  | .corrupt => .error "failed to decode image"
  | .decoded bytes => .ok bytes

/-- Embeds `src/lib.rs:157-165`: the `old_equals_data` closure: false when `old_path`
does not exist; otherwise decode `old_path` and compare to `new_data`, with a
decode failure swallowed into `false` by `unwrap_or(false)`. -/
def old_equals_data (old_img : DiskImage) (new_data : List Nat) : Bool :=
  if old_img.file_exists then
    match image_open old_img with
    | .ok data => decide (data = new_data)
    | .error _ => false
  else false

/-- What the filesystem would answer for the classification of one frame: the
state of its `old` file, the state of its golden-snapshot file, and whether
saving to `new` resp. copying into `failures`/`changed` would succeed. -/
structure DiskEnv where
  old_img : DiskImage
  snapshot_img : DiskImage
  save_ok : Bool
  copy_ok : Bool
deriving DecidableEq, Repr

/-- The filesystem writes performed while classifying one frame. -/
structure ClassifyEffects where
  wrote_new : Bool
  copied_to_failures : Bool
  copied_to_changed : Bool
deriving DecidableEq, Repr

/-- Embeds `src/lib.rs:131-202`: the per-frame classification closure (`lambda`) of
`process_results`, with its `anyhow::Result` folded into the `Error` outcome
exactly as the caller does at src/lib.rs:208-223. Step by step: build the
`ImageBuffer` from the raw frame (`from_raw` fails iff the buffer holds fewer
than `width*height` RGBA pixels, i.e. fewer than `width*height*4` bytes);
derive the output paths; save the frame to `new` (failure propagates via `?`);
if the snapshot exists, decode it (failure propagates) and compare, else
compare against `old`. Error payloads stand for the propagated io/image error
messages. -/
def classify_frame (opts : EmuRunnerOptions) (env : DiskEnv) (cand : TestCandidate)
    (frame : FrameOutput) : TestOutputType × ClassifyEffects :=
  if frame.frame.length < opts.expected_frame_width * opts.expected_frame_height * 4 then
    (.Error ⟨"Failed to turn framebuffer to dynamic image"⟩, ⟨false, false, false⟩)
  else
    let suffix := path_suffix cand frame.tag opts.put_sequence_tests_in_subfolder
    let oldP := old_path opts.output_path ++ suffix
    if env.save_ok = false then
      (.Error ⟨"failed to save new image"⟩, ⟨false, false, false⟩)
    else
      let snapshotP := opts.snapshot_path ++ suffix
      if env.snapshot_img.file_exists then
        match image_open env.snapshot_img with
        | .error e => (.Error ⟨e⟩, ⟨true, false, false⟩)
        | .ok snapshot_data =>
          if snapshot_data ≠ frame.frame then
            if env.copy_ok then
              (.Failure ⟨failures_path opts.output_path ++ suffix, snapshotP,
                old_equals_data env.old_img snapshot_data⟩, ⟨true, true, false⟩)
            else (.Error ⟨"failed to copy into failures"⟩, ⟨true, false, false⟩)
          else
            (.Passed ⟨!(old_equals_data env.old_img snapshot_data)⟩, ⟨true, false, false⟩)
      else
        if !(old_equals_data env.old_img frame.frame) then
          if env.copy_ok then
            (.Changed ⟨changed_path opts.output_path ++ suffix, oldP⟩, ⟨true, false, true⟩)
          else (.Error ⟨"failed to copy into changed"⟩, ⟨true, false, false⟩)
        else
          (.Unchanged ⟨!(env.old_img.file_exists)⟩, ⟨true, false, false⟩)

/-- The per-frame filesystem oracle under which a run classifies: which disk
state holds at the derived paths of each (candidate, frame) pair. -/
abbrev DiskOracle := TestCandidate → FrameOutput → DiskEnv

/-- Embeds `src/processing.rs:98-107`: `From<RunnerError> for TestOutput`: an Error
outcome with no elapsed time. -/
def runner_error_to_test_output (e : RunnerError) : TestOutput :=
  ⟨e.candidate, ⟨none, .Error ⟨e.context⟩⟩⟩

/-- Embeds `src/lib.rs:126-225`: one step of the `flat_map` in `process_results`: an
execution failure yields the single converted Error output; a success maps
each produced frame, in order, through the classification closure, attaching
the elapsed time of the candidate. -/
def process_result_one (opts : EmuRunnerOptions) (disk : DiskOracle) :
    Except RunnerError RunnerOutput → List TestOutput
  | .error e => [runner_error_to_test_output e]
  | .ok out =>
    out.context.frame_output.map fun frame =>
      ⟨out.candidate,
        ⟨some out.context.time_taken,
          (classify_frame opts (disk out.candidate frame) out.candidate frame).1⟩⟩

/-- Embeds `src/lib.rs:122-227`: `process_results` flat-maps every execution result
(the parallel `flat_map`-`collect` preserves input order). -/
def process_results (opts : EmuRunnerOptions) (disk : DiskOracle)
    (results : List (Except RunnerError RunnerOutput)) : List TestOutput :=
  (results.map (process_result_one opts disk)).flatten

theorem old_equals_data_absent (d : List Nat) :
    old_equals_data DiskImage.absent d = false := rfl

theorem old_equals_data_corrupt (d : List Nat) :
    old_equals_data DiskImage.corrupt d = false := rfl

/-- C2. With a golden snapshot present (decoding to `s`), the frame buffer
well-sized and the `new` save succeeding (src/lib.rs:157-199): a frame equal
to the snapshot classifies as `Passed` with `is_new` the negation of "the
`old` output is byte-identical to the snapshot"; a frame different from the
snapshot (with the copy succeeding) is copied into `failures` and classifies
as `Failed` with `is_new` exactly "the `old` output is byte-identical to the
snapshot"; and a missing or undecodable `old` file makes that comparison
false, so there `Passed` carries `is_new = true` and `Failed` carries
`is_new = false`. -/
theorem C2_snapshot_classification (opts : EmuRunnerOptions) (env : DiskEnv)
    (cand : TestCandidate) (frame : FrameOutput) (s : List Nat)
    (hsize : ¬ frame.frame.length < opts.expected_frame_width * opts.expected_frame_height * 4)
    (hsave : env.save_ok = true)
    (hsnap : env.snapshot_img = DiskImage.decoded s) :
    (frame.frame = s →
      classify_frame opts env cand frame =
        (.Passed ⟨!(old_equals_data env.old_img s)⟩, ⟨true, false, false⟩)) ∧
    (frame.frame ≠ s → env.copy_ok = true →
      classify_frame opts env cand frame =
        (.Failure
          ⟨failures_path opts.output_path ++
              path_suffix cand frame.tag opts.put_sequence_tests_in_subfolder,
            opts.snapshot_path ++
              path_suffix cand frame.tag opts.put_sequence_tests_in_subfolder,
            old_equals_data env.old_img s⟩, ⟨true, true, false⟩)) ∧
    ((env.old_img = DiskImage.absent ∨ env.old_img = DiskImage.corrupt) →
      old_equals_data env.old_img s = false) := by
  refine ⟨?_, ?_, ?_⟩
  · intro heq
    subst heq
    simp [classify_frame, hsize, hsave, hsnap, DiskImage.file_exists, image_open]
  · intro hne hcopy
    have hne' : s ≠ frame.frame := fun h => hne h.symm
    simp [classify_frame, hsize, hsave, hsnap, hcopy, DiskImage.file_exists, image_open, hne']
  · rintro (h | h) <;> rw [h]
    · exact old_equals_data_absent s
    · exact old_equals_data_corrupt s

/-- Witness for C2 at a concrete input: a 1×1 RGBA frame equal to the decoded
snapshot, with the `old` file absent, classifies as `Passed` with
`is_new = true`. -/
theorem C2_snapshot_classification_witness :
    classify_frame
        ⟨["out"], ["snap"], 1, 1, 1, false, false, none⟩
        ⟨DiskImage.absent, DiskImage.decoded [1, 2, 3, 4], true, true⟩
        ⟨"rom_a", ["roms", "rom_a.gb"], false⟩
        ⟨none, [1, 2, 3, 4]⟩ =
      (.Passed ⟨true⟩, ⟨true, false, false⟩) := by
  have h :=
    (C2_snapshot_classification
      ⟨["out"], ["snap"], 1, 1, 1, false, false, none⟩
      ⟨DiskImage.absent, DiskImage.decoded [1, 2, 3, 4], true, true⟩
      ⟨"rom_a", ["roms", "rom_a.gb"], false⟩
      ⟨none, [1, 2, 3, 4]⟩ [1, 2, 3, 4] (by decide) rfl rfl).1 rfl
  simpa using h

/-- Discriminator for the `Error` variant of `TestOutputType`. -/
def is_error_output : TestOutputType → Bool
  | .Error _ => true
  | _ => false

/-- C4 counterexample. The claim states that a corrupt `old` baseline that
fails to decode yields an `Error` outcome. At this explicit input — the `old`
file present but undecodable (`DiskImage.corrupt`), a well-sized 1×1 frame
byte-identical to a decodable snapshot, saving succeeding — the classification
is `Passed {is_new := true}`, not an `Error`: `old_equals_data`
(src/lib.rs:157-165) swallows the decode failure with `unwrap_or(false)`. -/
theorem C4_counterexample :
    (classify_frame ⟨["out"], ["snap"], 1, 1, 1, false, false, none⟩
        ⟨DiskImage.corrupt, DiskImage.decoded [1, 2, 3, 4], true, true⟩
        ⟨"rom_a", ["roms", "rom_a.gb"], false⟩ ⟨none, [1, 2, 3, 4]⟩).1 =
      TestOutputType.Passed ⟨true⟩ ∧
    is_error_output
        (classify_frame ⟨["out"], ["snap"], 1, 1, 1, false, false, none⟩
          ⟨DiskImage.corrupt, DiskImage.decoded [1, 2, 3, 4], true, true⟩
          ⟨"rom_a", ["roms", "rom_a.gb"], false⟩ ⟨none, [1, 2, 3, 4]⟩).1 = false := by
  constructor <;> rfl

/-- C4 (amended). Any I/O or decode failure during classification *except a
corrupt `old` baseline* yields an `Error` outcome (never `Failed`, `Passed`,
`Changed` or `Unchanged`): a frame buffer too small to hold
`expected_frame_width × expected_frame_height` RGBA pixels, an unwritable
`new` path, a golden snapshot that fails to decode, and a failing copy into
`failures`/`changed` all yield `Error`. A corrupt `old` baseline, by contrast,
is swallowed by the `unwrap_or(false)` in `old_equals_data` (src/lib.rs:157-165):
it merely makes the `old`-comparison false, and when the remaining I/O
succeeds and the snapshot (if any) decodes, the outcome is never an `Error`. -/
theorem C4_amended_error_taxonomy (opts : EmuRunnerOptions) (env : DiskEnv)
    (cand : TestCandidate) (frame : FrameOutput) :
    (frame.frame.length < opts.expected_frame_width * opts.expected_frame_height * 4 →
      is_error_output (classify_frame opts env cand frame).1 = true) ∧
    (¬ frame.frame.length < opts.expected_frame_width * opts.expected_frame_height * 4 →
      env.save_ok = false →
      is_error_output (classify_frame opts env cand frame).1 = true) ∧
    (¬ frame.frame.length < opts.expected_frame_width * opts.expected_frame_height * 4 →
      env.save_ok = true → env.snapshot_img = DiskImage.corrupt →
      is_error_output (classify_frame opts env cand frame).1 = true) ∧
    (∀ s, ¬ frame.frame.length < opts.expected_frame_width * opts.expected_frame_height * 4 →
      env.save_ok = true → env.snapshot_img = DiskImage.decoded s → s ≠ frame.frame →
      env.copy_ok = false →
      is_error_output (classify_frame opts env cand frame).1 = true) ∧
    (¬ frame.frame.length < opts.expected_frame_width * opts.expected_frame_height * 4 →
      env.save_ok = true → env.snapshot_img = DiskImage.absent →
      old_equals_data env.old_img frame.frame = false → env.copy_ok = false →
      is_error_output (classify_frame opts env cand frame).1 = true) ∧
    (∀ d, old_equals_data DiskImage.corrupt d = false) ∧
    (¬ frame.frame.length < opts.expected_frame_width * opts.expected_frame_height * 4 →
      env.save_ok = true → env.snapshot_img ≠ DiskImage.corrupt → env.copy_ok = true →
      is_error_output (classify_frame opts env cand frame).1 = false) := by
  refine ⟨?_, ?_, ?_, ?_, ?_, ?_, ?_⟩
  · intro h1
    simp [classify_frame, h1, is_error_output]
  · intro h1 h2
    simp [classify_frame, h1, h2, is_error_output]
  · intro h1 h2 h3
    simp [classify_frame, h1, h2, h3, DiskImage.file_exists, image_open, is_error_output]
  · intro s h1 h2 h3 h4 h5
    simp [classify_frame, h1, h2, h3, h4, h5, DiskImage.file_exists, image_open,
      is_error_output]
  · intro h1 h2 h3 h4 h5
    simp [classify_frame, h1, h2, h3, h4, h5, DiskImage.file_exists, is_error_output]
  · exact old_equals_data_corrupt
  · intro h1 h2 h3 h4
    cases hsnap : env.snapshot_img with
    | corrupt => exact absurd hsnap h3
    | absent =>
      by_cases h5 : old_equals_data env.old_img frame.frame <;>
        simp [classify_frame, h1, h2, h4, hsnap, h5, DiskImage.file_exists, is_error_output]
    | decoded s =>
      by_cases h5 : s = frame.frame <;>
        simp [classify_frame, h1, h2, h4, hsnap, h5, DiskImage.file_exists, image_open,
          is_error_output]

/-- Witness for C4 (amended) at concrete inputs: an empty frame under 1×1
expectations yields an `Error`, and a corrupt `old` never compares equal. -/
theorem C4_amended_error_taxonomy_witness :
    is_error_output
        (classify_frame ⟨["out"], ["snap"], 1, 1, 1, false, false, none⟩
          ⟨DiskImage.absent, DiskImage.absent, true, true⟩
          ⟨"rom_a", ["roms", "rom_a.gb"], false⟩ ⟨none, []⟩).1 = true ∧
    old_equals_data DiskImage.corrupt [0] = false := by
  constructor
  · exact (C4_amended_error_taxonomy ⟨["out"], ["snap"], 1, 1, 1, false, false, none⟩
      ⟨DiskImage.absent, DiskImage.absent, true, true⟩
      ⟨"rom_a", ["roms", "rom_a.gb"], false⟩ ⟨none, []⟩).1 (by decide)
  · exact (C4_amended_error_taxonomy ⟨["out"], ["snap"], 1, 1, 1, false, false, none⟩
      ⟨DiskImage.absent, DiskImage.absent, true, true⟩
      ⟨"rom_a", ["roms", "rom_a.gb"], false⟩ ⟨none, []⟩).2.2.2.2.2.1 [0]

theorem old_equals_data_true_exists (old_img : DiskImage) (d : List Nat)
    (h : old_equals_data old_img d = true) : old_img.file_exists = true := by
  cases old_img <;> simp_all [old_equals_data, DiskImage.file_exists, image_open]

theorem classify_unchanged_not_new (opts : EmuRunnerOptions) (env : DiskEnv)
    (cand : TestCandidate) (frame : FrameOutput) (u : TestOutputUnchanged)
    (h : (classify_frame opts env cand frame).1 = TestOutputType.Unchanged u) :
    u.newly_added = false := by
  by_cases h1 : frame.frame.length < opts.expected_frame_width * opts.expected_frame_height * 4
  · simp [classify_frame, h1] at h
  · by_cases h2 : env.save_ok = true
    · cases h3 : env.snapshot_img with
      | corrupt => simp [classify_frame, h1, h2, h3, DiskImage.file_exists, image_open] at h
      | decoded s =>
        by_cases h4 : s = frame.frame
        · simp [classify_frame, h1, h2, h3, h4, DiskImage.file_exists, image_open] at h
        · by_cases h5 : env.copy_ok <;>
            simp [classify_frame, h1, h2, h3, h4, h5, DiskImage.file_exists, image_open] at h
      | absent =>
        by_cases h4 : old_equals_data env.old_img frame.frame = true
        · cases ho : env.old_img with
          | absent =>
            rw [ho, old_equals_data_absent] at h4
            exact absurd h4 (by simp)
          | corrupt =>
            rw [ho, old_equals_data_corrupt] at h4
            exact absurd h4 (by simp)
          | decoded b =>
            rw [ho] at h4
            simp [classify_frame, h1, h2, h3, h4, ho, DiskImage.file_exists] at h
            rw [← h]
        · by_cases h5 : env.copy_ok <;>
            simp [classify_frame, h1, h2, h3, h4, h5, DiskImage.file_exists] at h
    · have h2' : env.save_ok = false := by
        cases hs : env.save_ok
        · rfl
        · exact absurd hs h2
      simp [classify_frame, h1, h2'] at h

/-- C10. Every `Unchanged` outcome emitted by `process_results`
(src/lib.rs:186-198) has `newly_added = false`: the `Unchanged` branch is
reached only when `old_equals_data` is true, which requires `old_path` to
exist, and `newly_added` is then the negation of that same existence check —
so the "new tests" counter of `formatters/simple.rs:138-148` can never see a
true `newly_added`. -/
theorem C10_unchanged_never_newly_added (opts : EmuRunnerOptions) (disk : DiskOracle)
    (results : List (Except RunnerError RunnerOutput)) (t : TestOutput)
    (u : TestOutputUnchanged)
    (ht : t ∈ process_results opts disk results)
    (hu : t.context.output = TestOutputType.Unchanged u) :
    u.newly_added = false := by
  rcases List.mem_flatten.mp ht with ⟨l, hl, htl⟩
  rcases List.mem_map.mp hl with ⟨r, _, rfl⟩
  cases r with
  | error e =>
    simp only [process_result_one, runner_error_to_test_output, List.mem_singleton] at htl
    rw [htl] at hu
    simp at hu
  | ok out =>
    rcases List.mem_map.mp htl with ⟨frame, _, rfl⟩
    simp only at hu
    exact classify_unchanged_not_new opts (disk out.candidate frame) out.candidate frame u hu

/-- Witness for C10 at a concrete input: one candidate whose frame equals the
decodable `old` baseline produces an `Unchanged` output, and its
`newly_added` is false. -/
theorem C10_unchanged_never_newly_added_witness :
    (⟨false⟩ : TestOutputUnchanged).newly_added = false := by
  exact C10_unchanged_never_newly_added
    ⟨["out"], ["snap"], 1, 1, 1, false, false, none⟩
    (fun _ _ => ⟨DiskImage.decoded [1, 2, 3, 4], DiskImage.absent, true, true⟩)
    [.ok ⟨⟨"rom_a", ["roms", "rom_a.gb"], false⟩, ⟨5, [⟨none, [1, 2, 3, 4]⟩]⟩⟩]
    ⟨⟨"rom_a", ["roms", "rom_a.gb"], false⟩, ⟨some 5, TestOutputType.Unchanged ⟨false⟩⟩⟩
    ⟨false⟩ (by decide) rfl

/-- C6. `process_results` (src/lib.rs:126-225): a successfully executed
candidate with N produced frames yields exactly N `TestOutput`s — one per
frame, in production order (the i-th output classifies the i-th frame), each
carrying the candidate and its elapsed time — while a failed execution yields
exactly one `TestOutput`, an `Error` with no elapsed time
(src/processing.rs:98-107). -/
theorem C6_one_output_per_frame (opts : EmuRunnerOptions) (disk : DiskOracle)
    (out : RunnerOutput) (e : RunnerError) :
    (process_result_one opts disk (.ok out)).length = out.context.frame_output.length ∧
    (∀ t ∈ process_result_one opts disk (.ok out),
      t.candidate = out.candidate ∧ t.context.time_taken = some out.context.time_taken) ∧
    (∀ i (h1 : i < out.context.frame_output.length),
      (process_result_one opts disk (.ok out)).get
          ⟨i, by simpa [process_result_one] using h1⟩ =
        ⟨out.candidate,
          ⟨some out.context.time_taken,
            (classify_frame opts (disk out.candidate (out.context.frame_output.get ⟨i, h1⟩))
              out.candidate (out.context.frame_output.get ⟨i, h1⟩)).1⟩⟩) ∧
    process_result_one opts disk (.error e) =
      [⟨e.candidate, ⟨none, TestOutputType.Error ⟨e.context⟩⟩⟩] := by
  refine ⟨?_, ?_, ?_, rfl⟩
  · simp [process_result_one]
  · intro t ht
    rcases List.mem_map.mp ht with ⟨frame, _, rfl⟩
    exact ⟨rfl, rfl⟩
  · intro i h1
    simp [process_result_one, List.get_map]

/-- Witness for C6 at a concrete input: a candidate with two frames yields two
outputs, the first classifying the first frame; a failed candidate yields the
single Error output without elapsed time. -/
theorem C6_one_output_per_frame_witness :
    (process_result_one ⟨["out"], ["snap"], 1, 1, 1, false, false, none⟩
        (fun _ _ => ⟨DiskImage.absent, DiskImage.absent, true, true⟩)
        (.ok ⟨⟨"rom_a", ["roms", "rom_a.gb"], true⟩,
          ⟨7, [⟨some "t0", [1, 2, 3, 4]⟩, ⟨some "t1", [5, 6, 7, 8]⟩]⟩⟩)).length = 2 ∧
    process_result_one ⟨["out"], ["snap"], 1, 1, 1, false, false, none⟩
        (fun _ _ => ⟨DiskImage.absent, DiskImage.absent, true, true⟩)
        (.error ⟨⟨"rom_b", ["roms", "rom_b.gb"], false⟩, "failed to read ROM"⟩) =
      [⟨⟨"rom_b", ["roms", "rom_b.gb"], false⟩,
        ⟨none, TestOutputType.Error ⟨"failed to read ROM"⟩⟩⟩] := by
  have h := C6_one_output_per_frame ⟨["out"], ["snap"], 1, 1, 1, false, false, none⟩
    (fun _ _ => ⟨DiskImage.absent, DiskImage.absent, true, true⟩)
    ⟨⟨"rom_a", ["roms", "rom_a.gb"], true⟩,
      ⟨7, [⟨some "t0", [1, 2, 3, 4]⟩, ⟨some "t1", [5, 6, 7, 8]⟩]⟩⟩
    ⟨⟨"rom_b", ["roms", "rom_b.gb"], false⟩, "failed to read ROM"⟩
  exact ⟨h.1, h.2.2.2⟩

/-- C7 counterexample. The claim states that derived output paths never
collide, *including* ids and tags containing the `_` separator, naming
candidate "a" with tag "b_c" versus candidate "a_b" with tag "c". At exactly
that input, with the sequence-subfolder setting off, `rom_id_to_png`
(src/setup.rs:61-67) renders both as "a_b_c.png" and the derived `new` paths
coincide. -/
theorem C7_counterexample :
    path_suffix ⟨"a", ["roms", "a.gb"], true⟩ (some "b_c") false =
      path_suffix ⟨"a_b", ["roms", "a_b.gb"], true⟩ (some "c") false ∧
    new_path ["out"] ++ path_suffix ⟨"a", ["roms", "a.gb"], true⟩ (some "b_c") false =
      new_path ["out"] ++ path_suffix ⟨"a_b", ["roms", "a_b.gb"], true⟩ (some "c") false := by
  constructor <;> decide

/-- A string free of the `_` separator used by `rom_id_to_png`. -/
abbrev no_underscore (s : String) : Prop := '_' ∉ s.data

/-- Embeds `no_underscore` lifted to optional frame tags. -/
def no_underscore_opt : Option String → Prop
  | none => True
  | some s => no_underscore s

instance (t : Option String) : Decidable (no_underscore_opt t) :=
  match t with
  | none => .isTrue trivial
  | some s => inferInstanceAs (Decidable ('_' ∉ s.data))

theorem sep_split {α : Type _} (c : α) (a : List α) :
    ∀ (a' b b' : List α), c ∉ a → c ∉ a' →
      a ++ c :: b = a' ++ c :: b' → a = a' ∧ b = b' := by
  induction a with
  | nil =>
    intro a' b b' _ ha' h
    cases a' with
    | nil => simpa using h
    | cons x xs =>
      simp only [List.nil_append, List.cons_append, List.cons.injEq] at h
      exact absurd (h.1 ▸ List.mem_cons_self x xs : c ∈ x :: xs) ha'
  | cons y ys ih =>
    intro a' b b' ha ha' h
    cases a' with
    | nil =>
      simp only [List.nil_append, List.cons_append, List.cons.injEq] at h
      exact absurd (h.1.symm ▸ List.mem_cons_self y ys : c ∈ y :: ys) ha
    | cons x xs =>
      simp only [List.cons_append, List.cons.injEq] at h
      obtain ⟨hyx, hrest⟩ := h
      have hys : c ∉ ys := fun hc => ha (List.mem_cons_of_mem _ hc)
      have hxs : c ∉ xs := fun hc => ha' (List.mem_cons_of_mem _ hc)
      obtain ⟨he, hb⟩ := ih xs b b' hys hxs hrest
      exact ⟨by rw [hyx, he], hb⟩

theorem rom_id_to_png_inj (i1 i2 : String) (t1 t2 : Option String)
    (hi1 : no_underscore i1) (hi2 : no_underscore i2)
    (ht1 : no_underscore_opt t1) (ht2 : no_underscore_opt t2)
    (h : rom_id_to_png i1 t1 = rom_id_to_png i2 t2) : i1 = i2 ∧ t1 = t2 := by
  have hd := congrArg String.data h
  cases t1 with
  | none =>
    cases t2 with
    | none =>
      simp only [rom_id_to_png, String.data_append] at hd
      exact ⟨String.ext (List.append_cancel_right hd), rfl⟩
    | some s2 =>
      exfalso
      simp only [rom_id_to_png, String.data_append] at hd
      have hmem : '_' ∈ i1.data ++ ".png".data := by
        rw [hd]
        refine List.mem_append.mpr (Or.inl ?_)
        refine List.mem_append.mpr (Or.inl ?_)
        exact List.mem_append.mpr (Or.inr (by decide))
      rcases List.mem_append.mp hmem with hc | hc
      · exact hi1 hc
      · exact absurd hc (by decide)
  | some s1 =>
    cases t2 with
    | none =>
      exfalso
      simp only [rom_id_to_png, String.data_append] at hd
      have hmem : '_' ∈ i2.data ++ ".png".data := by
        rw [← hd]
        refine List.mem_append.mpr (Or.inl ?_)
        refine List.mem_append.mpr (Or.inl ?_)
        exact List.mem_append.mpr (Or.inr (by decide))
      rcases List.mem_append.mp hmem with hc | hc
      · exact hi2 hc
      · exact absurd hc (by decide)
    | some s2 =>
      simp only [rom_id_to_png, String.data_append, List.append_assoc] at hd
      have hd' : i1.data ++ '_' :: (s1.data ++ ".png".data) =
          i2.data ++ '_' :: (s2.data ++ ".png".data) := by
        simpa using hd
      obtain ⟨hi, hrest⟩ :=
        sep_split ('_') i1.data i2.data _ _ hi1 hi2 hd'
      exact ⟨String.ext hi, by rw [String.ext (List.append_cancel_right hrest)]⟩

/-- C7 (amended). Output-path derivation (src/setup.rs:61-67 and
src/lib.rs:142-151) is a deterministic function of candidate id, frame tag and
the sequence-subfolder setting, and it is injective *provided the ids and tags
do not contain the `_` separator character*: for two frames from distinct
candidates, or from one candidate with distinct tags, the derived path
suffixes — hence the `new`/`old`/`changed`/`failures` paths obtained by
prefixing a common generation directory — never collide. (Ids or tags that
contain `_` can collide, as the C7 counterexample shows, so the parenthetical example of the claim is exactly the case that must be excluded.) -/
theorem C7_amended_path_injectivity (c1 c2 : TestCandidate) (t1 t2 : Option String)
    (sub : Bool)
    (h1 : no_underscore c1.rom_id) (h2 : no_underscore c2.rom_id)
    (h3 : no_underscore_opt t1) (h4 : no_underscore_opt t2)
    (hne : c1.rom_id ≠ c2.rom_id ∨ (c1.rom_id = c2.rom_id ∧ t1 ≠ t2)) :
    path_suffix c1 t1 sub ≠ path_suffix c2 t2 sub ∧
    ∀ base : List String,
      base ++ path_suffix c1 t1 sub ≠ base ++ path_suffix c2 t2 sub := by
  have key : path_suffix c1 t1 sub ≠ path_suffix c2 t2 sub := by
    intro heq
    have hcases : c1.rom_id = c2.rom_id ∧ t1 = t2 := by
      by_cases hb1 : c1.is_sequence_test && sub
      · by_cases hb2 : c2.is_sequence_test && sub
        · simp only [path_suffix, hb1, hb2, if_true, List.cons.injEq, and_true] at heq
          exact ⟨heq.1, (rom_id_to_png_inj _ _ _ _ h1 h2 h3 h4 heq.2).2⟩
        · simp [path_suffix, hb1, hb2] at heq
      · by_cases hb2 : c2.is_sequence_test && sub
        · simp [path_suffix, hb1, hb2] at heq
        · simp only [path_suffix, hb1, hb2, if_false, Bool.false_eq_true,
            List.cons.injEq, and_true] at heq
          exact rom_id_to_png_inj _ _ _ _ h1 h2 h3 h4 heq
    rcases hne with hid | ⟨_, ht⟩
    · exact hid hcases.1
    · exact ht hcases.2
  exact ⟨key, fun base hb => key (List.append_cancel_left hb)⟩

/-- Witness for C7 (amended) at concrete inputs: candidates "a" (tag "b") and
"c" (tag "d"), underscore-free, derive distinct flat path suffixes. -/
theorem C7_amended_path_injectivity_witness :
    path_suffix ⟨"a", ["roms", "a.gb"], false⟩ (some "b") false ≠
      path_suffix ⟨"c", ["roms", "c.gb"], false⟩ (some "d") false :=
  (C7_amended_path_injectivity ⟨"a", ["roms", "a.gb"], false⟩ ⟨"c", ["roms", "c.gb"], false⟩
    (some "b") (some "d") false (by decide) (by decide) (by decide) (by decide)
    (Or.inl (by decide))).1

/-- The contents of one generation directory: a flat map from file subpath to
file bytes. -/
abbrev DirContent := List (List String × List Nat)

/-- The four on-disk generation directories under the output root; `none`
means the directory does not exist. -/
structure OutputDirs where
  new_dir : Option DirContent
  old_dir : Option DirContent
  changed_dir : Option DirContent
  failures_dir : Option DirContent
deriving DecidableEq, Repr

/-- Embeds `src/setup.rs:16-36`: `setup_output_directory`, step by step:
`remove_dir_all(old_dir)` (result ignored); if `new_dir` exists,
`rename(new_dir, old_dir)` (failure propagates via the question-mark operator,
modelled by the `rename_ok` oracle); `remove_dir_all` on `changed` and
`failures` (results ignored); `create_dir_all` for `new`, `changed` and
`failures`. Note `old` is *not* recreated when `new` did not exist. -/
def setup_output_directory (rename_ok : Bool) (d : OutputDirs) : Except String OutputDirs :=
  let d1 : OutputDirs := { d with old_dir := none }
  match d1.new_dir with
  | some content =>
    if rename_ok then
      let d2 : OutputDirs := { d1 with new_dir := none, old_dir := some content }
      let d3 : OutputDirs := { d2 with changed_dir := none, failures_dir := none }
      .ok { d3 with new_dir := some [], changed_dir := some [], failures_dir := some [] }
    else .error "failed to rename the new directory onto the old directory"
  | none =>
    let d3 : OutputDirs := { d1 with changed_dir := none, failures_dir := none }
    .ok { d3 with new_dir := some [], changed_dir := some [], failures_dir := some [] }

/-- Embeds `src/setup.rs:41-43`: `setup_snapshot_directory` is `create_dir_all`: it
creates the directory when missing and keeps it untouched otherwise. -/
def setup_snapshot_directory (s : Option DirContent) : Option DirContent :=
  match s with
  | some c => some c
  | none => some []

/-- The on-disk state a runner construction touches. -/
structure RunnerDiskState where
  output : OutputDirs
  snapshot_dir : Option DirContent
deriving DecidableEq, Repr

/-- Embeds `src/lib.rs:39-55`: `EmuTestRunner::new` performs the generation rotation
and snapshot-directory creation at *construction* time (thread-pool creation
is not modelled); `run_tests` (src/lib.rs:60-79) performs no directory
manipulation of its own. -/
def emu_test_runner_new (rename_ok : Bool) (st : RunnerDiskState) :
    Except String RunnerDiskState :=
  match setup_output_directory rename_ok st.output with
  | .error e => .error e
  | .ok d => .ok ⟨d, setup_snapshot_directory st.snapshot_dir⟩

/-- C3. Runner construction (`EmuTestRunner::new`, src/lib.rs:39-55,
calling `setup_output_directory`, src/setup.rs:16-36) rotates the on-disk
generations, assuming the rename succeeds: the stale `old` directory is
removed and replaced by exactly the `new` directory of the previous run (or left
absent when there was no previous `new`), while `changed` and `failures` are
wiped and recreated empty and `new` is recreated empty — so `old` reflects
exactly the immediately preceding run. As the claim notes, this happens at
runner construction, not once per `run_tests` invocation. -/
theorem C3_generation_rotation (st : RunnerDiskState) :
    emu_test_runner_new true st =
      .ok ⟨⟨some [], st.output.new_dir, some [], some []⟩,
        setup_snapshot_directory st.snapshot_dir⟩ := by
  cases hst : st.output.new_dir <;>
    simp [emu_test_runner_new, setup_output_directory, hst]

/-- Embeds `src/panics.rs:19-26`: `latest_panic` returns the message of the most
recent panic recorded for the executing worker. The process-wide
`PANIC_BUFFER` keyed by thread id is modelled by the entry of the executing worker: its list of recorded messages, most recent last. -/
def latest_panic (buffer : List String) : Option String := buffer.getLast?

/-- The behavior of the caller-supplied `emu_run` callback on one candidate:
a normal return with frames, or a panic carrying a message. -/
inductive EmuRunBehavior where
  | normal (frames : List FrameOutput)
  | panics (msg : String)
deriving DecidableEq, Repr

/-- Embeds `src/lib.rs:88-113`: the per-candidate body of
`run_tests_in_panic_handler`: read the ROM (an io failure becomes an
immediate `RunnerError`, the io message wrapped with the fixed context
string); otherwise invoke `emu_run` under `catch_unwind`. When the callback
panics, the scoped hook (src/panics.rs:36-54) has already appended the panic
message to the buffer entry of this worker, and the caught branch builds
`Caught an emulator panic: <backquoted latest_panic().unwrap()>`. Returns the
result together with the updated correlation buffer. -/
def run_candidate (buffer : List String) (cand : TestCandidate) (t : Nat)
    (rom_read : Except String (List Nat)) (behavior : EmuRunBehavior) :
    (Except RunnerError RunnerOutput) × List String :=
  match rom_read with
  | .error e => (.error ⟨cand, "read ROM failed: " ++ e⟩, buffer)
  | .ok _ =>
    match behavior with
    | .normal frames => (.ok ⟨cand, ⟨t, frames⟩⟩, buffer)
    | .panics msg =>
      let buffer2 := buffer ++ [msg]
      match latest_panic buffer2 with
      | some m => (.error ⟨cand, "Caught an emulator panic: `" ++ m ++ "`"⟩, buffer2)
      | none => (.error ⟨cand, "latest_panic unwrap failed"⟩, buffer2)

/-- Embeds `src/lib.rs:81-120`: `run_tests_in_panic_handler` maps `run_candidate`
over all candidates (the single-worker sequential model of the parallel
bridge, threading the correlation buffer), collecting one result per
candidate. -/
def run_tests_in_panic_handler (buffer : List String)
    (tests : List (TestCandidate × Nat × Except String (List Nat) × EmuRunBehavior)) :
    List (Except RunnerError RunnerOutput) × List String :=
  match tests with
  | [] => ([], buffer)
  | (cand, t, rom, beh) :: rest =>
    let step := run_candidate buffer cand t rom beh
    let rest_out := run_tests_in_panic_handler step.2 rest
    (step.1 :: rest_out.1, rest_out.2)

/-- C5 counterexample. The claim states the recovered cause message is
"recovered fault: <message>". At this explicit input — a candidate whose run
panics with message "boom" on an empty correlation buffer — the code
(src/lib.rs:98-101) produces the cause
"Caught an emulator panic: <backquoted boom>", which differs from
"recovered fault: boom". -/
theorem C5_counterexample :
    (run_candidate [] ⟨"rom_a", ["roms", "rom_a.gb"], false⟩ 3 (.ok [0])
        (.panics "boom")).1 =
      .error ⟨⟨"rom_a", ["roms", "rom_a.gb"], false⟩, "Caught an emulator panic: `boom`"⟩ ∧
    "Caught an emulator panic: `boom`" ≠ "recovered fault: boom" := by
  exact ⟨rfl, by decide⟩

/-- C5 (amended). For every candidate whose run callback panics, the
execution engine catches it and produces a Failure whose cause message is
"Caught an emulator panic: <backquoted message>" where the message is the most
recent fault message recorded for the executing worker in the correlation
buffer (the hook records it, `latest_panic` retrieves exactly it — pulled
from the buffer, never fabricated); and no panic stops other candidates:
`run_tests_in_panic_handler` yields exactly one result per candidate
whatever the behaviors. -/
theorem C5_amended_panic_recovery (buffer : List String) (cand : TestCandidate)
    (t : Nat) (rom : List Nat) (msg : String) :
    (run_candidate buffer cand t (.ok rom) (.panics msg)).1 =
      .error ⟨cand, "Caught an emulator panic: `" ++ msg ++ "`"⟩ ∧
    (run_candidate buffer cand t (.ok rom) (.panics msg)).2 = buffer ++ [msg] ∧
    latest_panic (buffer ++ [msg]) = some msg ∧
    (∀ buf tests, (run_tests_in_panic_handler buf tests).1.length = tests.length) := by
  refine ⟨?_, ?_, ?_, ?_⟩
  · simp [run_candidate, latest_panic]
  · simp [run_candidate, latest_panic]
  · simp [latest_panic]
  · intro buf tests
    induction tests generalizing buf with
    | nil => rfl
    | cons p rest ih =>
      obtain ⟨c, t1, r, b⟩ := p
      simp [run_tests_in_panic_handler, ih]

/-- The process-wide panic hook currently installed: the default hook, the
correlation hook of `run_in_custom_handler`, or some other prior hook. -/
inductive PanicHook where
  | dflt
  | correlation
  | other (id : Nat)
deriving DecidableEq, Repr

/-- Embeds `src/panics.rs:33-61`: `run_in_custom_handler`, as a function of the hook
installed on entry and of the closure outcome (`.ok r` for a normal return,
`.error payload` for an unwind that escapes the closure): `take_hook` saves
the prior hook and installs the default, `set_hook` installs the correlation
hook, then the closure runs; only the normal-return path reaches the final
`set_hook(prior)` — an escaping unwind propagates immediately, skipping it.
Returns the closure outcome together with the hook left installed. -/
def run_in_custom_handler {R : Type} (installed : PanicHook) (f : Except String R) :
    Except String R × PanicHook :=
  let hook := installed
  let cur := PanicHook.dflt
  let cur := PanicHook.correlation
  match f with
  | .error e => (.error e, cur)
  | .ok out =>
    let cur := hook
    (.ok out, cur)

/-- C9 counterexample. The claim states the prior panic hook is restored
on every exit path, including when the closure unwinds. At this explicit
input — prior hook `other 0` and a closure that escapes with a panic — the
correlation hook is left installed: the restoring `set_hook` at
src/panics.rs:58 is skipped by the unwind (there is no drop guard). -/
theorem C9_counterexample :
    (run_in_custom_handler (R := Nat) (.other 0) (.error "boom")).2 =
      PanicHook.correlation ∧
    (run_in_custom_handler (R := Nat) (.other 0) (.error "boom")).2 ≠
      PanicHook.other 0 := by
  constructor <;> decide

/-- C9 (amended). `run_in_custom_handler` (src/panics.rs:33-61) installs
the correlation hook scoped to the closure and restores the prior hook on the
normal-return path only: when the closure returns normally the prior hook is
reinstalled and the value passed through, but when the closure unwinds the
restore is skipped and the correlation hook remains installed while the
unwind propagates. -/
theorem C9_amended_hook_restore {R : Type} (prior : PanicHook) (r : R) (e : String) :
    run_in_custom_handler prior (.ok r) = (.ok r, prior) ∧
    run_in_custom_handler (R := R) prior (.error e) = (.error e, .correlation) := by
  exact ⟨rfl, rfl⟩

/-- Embeds `src/lib.rs:60-79`: `run_tests`: the formatter start notification, the
parallel execution phase inside the scoped panic handler, the classification
phase, and the aggregation into a `TestReport` handed to the formatter
completion hook. The formatter calls perform no state transformation that
feeds back into the report, so the embedding returns the report. No field of
`options` beyond those used by classification is consulted — in particular
`options.timeout` is never read and nothing here terminates the process. -/
def run_tests (opts : EmuRunnerOptions) (buffer : List String) (disk : DiskOracle)
    (tests : List (TestCandidate × Nat × Except String (List Nat) × EmuRunBehavior)) :
    TestReport :=
  let frame_results := (run_tests_in_panic_handler buffer tests).1
  let test_results := process_results opts disk frame_results
  TestReport.new test_results

/-- C8 (code evaluation). Contrary to the claim and to the documentation
of `EmuRunnerOptions::timeout` (src/options.rs:16-17, "How long the entire
test suite is allowed to take before the process is forcefully killed"), the
`timeout` option is dead code: `run_tests` (src/lib.rs:60-79) never reads it,
so for every input the run proceeds identically — and runs to completion —
whatever the timeout value. No expiry ever terminates the process. -/
theorem C8_timeout_never_read (opts : EmuRunnerOptions) (t1 t2 : Option Nat)
    (buffer : List String) (disk : DiskOracle)
    (tests : List (TestCandidate × Nat × Except String (List Nat) × EmuRunBehavior)) :
    run_tests { opts with timeout := t1 } buffer disk tests =
      run_tests { opts with timeout := t2 } buffer disk tests := by
  cases opts
  rfl

end EmuTest
